import Mathlib

/-!
Verification of the rule-based fraud-detection engine in `src/ai_logic.py`
(class `FraudDetectionAI`).  Strings are modelled as `List Char`; Python's
`str.lower`, `str.split`, `str.strip`, substring tests (`in`) and the regex
`[\d,]+` token extraction are modelled by executable functions below.  The
mutable accumulator `(self.detected_flags, self.risk_score)` is modelled by
explicit state passing of an `AState` value; the two places where the source
can raise `IndexError` (`email.split('@')[1]` and
`company_name.lower().split()[0]`) are modelled with `Except`.
-/

set_option maxRecDepth 40000

/-- Shorthand turning a Lean string literal into the `List Char` the model
uses for Python strings. -/
def s2l (s : String) : List Char := s.data

/-- ASCII model of Python `str.lower` on one character (`'A'..'Z'` map to
`'a'..'z'`, everything else is fixed). -/
def lowerChar (c : Char) : Char :=
  if h : 65 ≤ c.toNat ∧ c.toNat ≤ 90 then
    Char.ofNatAux (c.toNat + 32) (Or.inl (by omega))
  else c

/-- Model of Python `str.lower`. -/
def lowerStr (l : List Char) : List Char := l.map lowerChar

/-- Characters stripped by Python `str.strip()` / split by `str.split()`:
space, tab, newline, carriage return, vertical tab, form feed. -/
def isPySpace (c : Char) : Bool :=
  c == ' ' || c == '\t' || c == '\n' || c == '\r' || c.toNat == 11 || c.toNat == 12

/-- Model of Python `str.strip()` (drop leading and trailing whitespace). -/
def pyStrip (l : List Char) : List Char :=
  ((l.dropWhile isPySpace).reverse.dropWhile isPySpace).reverse

/-- `isPrefixB n h` is true when `n` is a prefix of `h`. -/
def isPrefixB : List Char → List Char → Bool
  | [], _ => true
  | _ :: _, [] => false
  | a :: as, b :: bs => (a == b) && isPrefixB as bs

/-- `substrB n h` models the Python substring test `n in h`. -/
def substrB (n : List Char) : List Char → Bool
  | [] => n.isEmpty
  | c :: t => isPrefixB n (c :: t) || substrB n t

/-- Model of Python `s.split(sep)` for a one-character separator: splits at
every occurrence, keeping empty pieces (so the result always has
`count sep + 1` elements). -/
def splitOnChar (sep : Char) : List Char → List (List Char)
  | [] => [[]]
  | c :: t =>
    match splitOnChar sep t with
    | [] => [[]]
    | h :: r => if c == sep then [] :: h :: r else (c :: h) :: r

/-- Maximal runs of characters satisfying `p` (accumulator-based helper). -/
def tokenizeAux (p : Char → Bool) (cur : List Char) : List Char → List (List Char)
  | [] => if cur.isEmpty then [] else [cur.reverse]
  | c :: t =>
    if p c then tokenizeAux p (c :: cur) t
    else if cur.isEmpty then tokenizeAux p [] t
    else cur.reverse :: tokenizeAux p [] t

/-- `tokenize p l` lists the maximal runs of characters of `l` satisfying
`p`, in order.  With `p` = "digit or comma" this is `re.findall(r'[\d,]+', l)`;
with `p` = "not whitespace" it is Python's no-argument `str.split()`. -/
def tokenize (p : Char → Bool) (l : List Char) : List (List Char) :=
  tokenizeAux p [] l

/-- Characters matched by the regex class `[\d,]` in the salary scan. -/
def isNumTokenChar (c : Char) : Bool := c.isDigit || c == ','

/-- Model of Python `str.split()` with no argument (whitespace runs are
separators and are discarded, no empty words). -/
def pyWords (l : List Char) : List (List Char) :=
  tokenize (fun c => !isPySpace c) l

/-- Digit-string to number, `none` on the empty string (where Python's
`int("")` raises `ValueError`); only applied to all-digit strings. -/
def digitsToNat? : List Char → Option Nat
  | [] => none
  | l => some (l.foldl (fun a c => a * 10 + (c.toNat - 48)) 0)

-- ========================================
-- Static rule tables (module constants in ai_logic.py)
-- ========================================

/-- `FREE_EMAIL_DOMAINS` from ai_logic.py lines 14-18. -/
def FREE_EMAIL_DOMAINS : List (List Char) :=
  [s2l "gmail.com", s2l "yahoo.com", s2l "outlook.com", s2l "hotmail.com",
   s2l "mail.com", s2l "protonmail.com", s2l "yandex.com", s2l "aol.com",
   s2l "icloud.com", s2l "mail.ru", s2l "temp-mail.org"]

/-- `SUSPICIOUS_KEYWORDS['urgency']` (line 22). -/
def SUSPICIOUS_KEYWORDS_urgency : List (List Char) :=
  [s2l "urgent", s2l "asap", s2l "immediately", s2l "within 24 hours",
   s2l "apply now", s2l "limited time"]

/-- `SUSPICIOUS_KEYWORDS['money_request']` (line 23). -/
def SUSPICIOUS_KEYWORDS_money_request : List (List Char) :=
  [s2l "payment", s2l "fee", s2l "registration", s2l "processing",
   s2l "verification fee", s2l "advance payment"]

/-- `SUSPICIOUS_KEYWORDS['unrealistic_benefits']` (line 24). -/
def SUSPICIOUS_KEYWORDS_unrealistic_benefits : List (List Char) :=
  [s2l "unlimited leaves", s2l "no work", s2l "from home no work",
   s2l "easy money", s2l "passive income"]

/-- `SUSPICIOUS_KEYWORDS['copy_paste']` (line 25). -/
def SUSPICIOUS_KEYWORDS_copy_paste : List (List Char) :=
  [s2l "dear applicant", s2l "dear candidate", s2l "dear applicants"]

/-- `SUSPICIOUS_KEYWORDS['guaranteed']` (line 26). -/
def SUSPICIOUS_KEYWORDS_guaranteed : List (List Char) :=
  [s2l "guaranteed", s2l "promise", s2l "certainly", s2l "assured",
   s2l "definitely hired"]

/-- `SUSPICIOUS_KEYWORDS['work_from_home_too_good']` (line 27). -/
def SUSPICIOUS_KEYWORDS_work_from_home_too_good : List (List Char) :=
  [s2l "work from anywhere", s2l "no experience needed", s2l "earn 5000/day",
   s2l "earn while you sleep"]

/-- All keywords of `SUSPICIOUS_KEYWORDS`, every category together. -/
def ALL_SUSPICIOUS_KEYWORDS : List (List Char) :=
  SUSPICIOUS_KEYWORDS_urgency ++ SUSPICIOUS_KEYWORDS_money_request ++
  SUSPICIOUS_KEYWORDS_unrealistic_benefits ++ SUSPICIOUS_KEYWORDS_copy_paste ++
  SUSPICIOUS_KEYWORDS_guaranteed ++ SUSPICIOUS_KEYWORDS_work_from_home_too_good

/-- The misspelling list of `_check_description_quality` (line 242). -/
def common_misspellings : List (List Char) :=
  [s2l "recieve", s2l "occured", s2l "sucessful", s2l "applicaton", s2l "seperete"]

/-- The legitimacy-keyword list of `_check_company_legitimacy` (line 258). -/
def LEGITIMACY_KEYWORDS : List (List Char) :=
  [s2l "private", s2l "limited", s2l "corporation", s2l "international"]

/-- A salary plausibility band; `min`/`max` are the dict keys of
`UNREALISTIC_SALARY_THRESHOLDS` (lines 31-35). -/
structure Band where
  min : Int
  max : Int
deriving DecidableEq

/-- `UNREALISTIC_SALARY_THRESHOLDS['internship']`. -/
def UNREALISTIC_SALARY_THRESHOLDS_internship : Band := ⟨5000, 500000⟩

/-- `UNREALISTIC_SALARY_THRESHOLDS['entry_level']`. -/
def UNREALISTIC_SALARY_THRESHOLDS_entry_level : Band := ⟨200000, 3000000⟩

/-- `UNREALISTIC_SALARY_THRESHOLDS['mid_level']`. -/
def UNREALISTIC_SALARY_THRESHOLDS_mid_level : Band := ⟨500000, 5000000⟩

-- ========================================
-- Data model
-- ========================================

/-- DetectedFlag severity levels (the `severity` strings of `_add_flag`). -/
inductive Severity
  | critical
  | high
  | medium
  | low
deriving DecidableEq

/-- One detected red flag, as appended by `_add_flag` (lines 281-296).  The
source also stores a human-readable `description` string (an f-string built
from the matched data); that presentation text carries no decision logic and
is not modelled. -/
structure DetectedFlag where
  type : String
  severity : Severity
deriving DecidableEq

/-- The accumulator the engine owns during one `analyze` call:
`self.detected_flags` and `self.risk_score` (reset at lines 69-70). -/
structure AState where
  detected_flags : List DetectedFlag
  risk_score : Int
deriving DecidableEq

/-- Python truthiness test `not x` for an optional string. -/
def isFalsyOpt : Option (List Char) → Bool
  | none => true
  | some l => l.isEmpty

/-- The only uncaught exception the engine can raise: `IndexError` from
indexing an empty split result (lines 99 and 270-271). -/
inductive AErr
  | indexError
deriving DecidableEq

deriving instance DecidableEq for Except

/-- `_add_flag` (lines 281-296): append the flag, add the impact. -/
def _add_flag (st : AState) (flag_type : String) (severity : Severity)
    (score_impact : Int) : AState :=
  { detected_flags := st.detected_flags ++ [⟨flag_type, severity⟩],
    risk_score := st.risk_score + score_impact }

/-- The shape every rule's emission has: if the condition holds, append one
flag with a fixed severity and impact, otherwise change nothing. -/
def condAdd (b : Bool) (t : String) (sev : Severity) (imp : Int)
    (st : AState) : AState :=
  if b then _add_flag st t sev imp else st

/-- `any(keyword in text for keyword in kws)`. -/
def anyKw (kws : List (List Char)) (text : List Char) : Bool :=
  kws.any (fun k => substrB k text)

/-- `sum(1 for keyword in kws if keyword in text)`. -/
def countKw (kws : List (List Char)) (text : List Char) : Nat :=
  (kws.filter (fun k => substrB k text)).length

-- ========================================
-- The ten detection rules
-- ========================================

/-- Rule 1, `_check_email_domain` (lines 97-107).  `email.split('@')[1]`
raises `IndexError` when the email has no `'@'`; otherwise flag free
domains.  The argument is the already-lowercased email (line 74); the
source lowercases the extracted domain again (line 99). -/
def _check_email_domain (email : List Char) (st : AState) : Except AErr AState :=
  match (splitOnChar '@' email).get? 1 with
  | none => Except.error AErr.indexError
  | some part =>
    Except.ok (condAdd (FREE_EMAIL_DOMAINS.contains (lowerStr part))
      "Free Email Domain" Severity.high 15 st)

/-- Rule 2, `_check_missing_website` (lines 109-117); `company_name` is
passed but unused, as in the source. -/
def _check_missing_website (website : Option (List Char))
    (company_name : List Char) (st : AState) : AState :=
  condAdd (isFalsyOpt website) "Missing Company Website" Severity.high 12 st

/-- Rule 3, `_check_suspicious_keywords` (lines 119-152): a category is in
`found_keywords` exactly when some keyword of it occurs in the description;
flags fire for `money_request`, `guaranteed`, `work_from_home_too_good`,
in that order. -/
def _check_suspicious_keywords (description : List Char) (st : AState) : AState :=
  condAdd (anyKw SUSPICIOUS_KEYWORDS_work_from_home_too_good description)
    "Unrealistic Work-from-Home Offer" Severity.high 16
    (condAdd (anyKw SUSPICIOUS_KEYWORDS_guaranteed description)
      "Unrealistic Guarantees" Severity.high 18
      (condAdd (anyKw SUSPICIOUS_KEYWORDS_money_request description)
        "Payment Request" Severity.critical 25 st))

/-- Rule 4, `_check_urgency_language` (lines 154-164). -/
def _check_urgency_language (description : List Char) (st : AState) : AState :=
  condAdd (decide (2 ≤ countKw SUSPICIOUS_KEYWORDS_urgency description))
    "Excessive Urgency" Severity.medium 10 st

/-- Rule 5, `_check_copy_paste_content` (lines 166-176). -/
def _check_copy_paste_content (description : List Char) (st : AState) : AState :=
  condAdd (decide (0 < countKw SUSPICIOUS_KEYWORDS_copy_paste description))
    "Generic/Copy-Paste Content" Severity.medium 8 st

/-- Rule 6, `_check_unrealistic_benefits` (lines 178-186). -/
def _check_unrealistic_benefits (description : List Char) (st : AState) : AState :=
  condAdd (anyKw SUSPICIOUS_KEYWORDS_unrealistic_benefits description)
    "Unrealistic Benefits" Severity.high 14 st

/-- The salary parse of `_check_salary_unrealistic` (lines 190-201): `None`
or empty salary, no `[\d,]+` token, or `int` failing on the de-comma'd first
token (i.e. the token was all commas) all yield `none`; these are exactly
the silently-skipped cases. -/
def parsedSalary : Option (List Char) → Option Int
  | none => none
  | some s =>
    if s.isEmpty then none
    else
      match (tokenize isNumTokenChar s).head? with
      | none => none
      | some tok =>
        match digitsToNat? (tok.filter (fun c => !(c == ','))) with
        | none => none
        | some n => some (Int.ofNat n)

/-- The job-level banding of `_check_salary_unrealistic` (lines 203-213). -/
def jobBand (job_title : List Char) : Band :=
  if anyKw [s2l "intern", s2l "apprentice", s2l "fresher"] (lowerStr job_title) then
    UNREALISTIC_SALARY_THRESHOLDS_internship
  else if anyKw [s2l "junior", s2l "entry", s2l "associate"] (lowerStr job_title) then
    UNREALISTIC_SALARY_THRESHOLDS_entry_level
  else
    UNREALISTIC_SALARY_THRESHOLDS_mid_level

/-- Rule 7, `_check_salary_unrealistic` (lines 188-228): skip silently when
the salary does not parse, otherwise an if/elif pair on the band bounds. -/
def _check_salary_unrealistic (salary : Option (List Char))
    (job_title : List Char) (st : AState) : AState :=
  match parsedSalary salary with
  | none => st
  | some salary_value =>
    if (jobBand job_title).max < salary_value then
      _add_flag st "Unrealistic Salary (Too High)" Severity.high 13
    else if salary_value < (jobBand job_title).min then
      _add_flag st "Unrealistic Salary (Too Low)" Severity.medium 7
    else st

/-- Rule 8, `_check_description_quality` (lines 230-251): short-description
check on the raw text, misspelling count on the lowercased text. -/
def _check_description_quality (description : List Char) (st : AState) : AState :=
  condAdd (decide (2 ≤ countKw common_misspellings (lowerStr description)))
    "Poor Grammar/Spelling" Severity.low 4
    (condAdd (decide ((pyStrip description).length < 100))
      "Poor Job Description Quality" Severity.medium 6 st)

/-- Rule 9, `_check_company_legitimacy` (lines 253-266): legitimacy keyword
present and `company_lower.count(' ') > 4` (note: a count of space
characters, not of words). -/
def _check_company_legitimacy (company_name : List Char) (st : AState) : AState :=
  condAdd (anyKw LEGITIMACY_KEYWORDS (lowerStr company_name) &&
            decide (4 < (lowerStr company_name).count ' '))
    "Suspicious Company Name Pattern" Severity.low 3 st

/-- Rule 10, `_check_email_company_mismatch` (lines 268-275): the source
extracts `email.split('@')[1]` and `company_name.lower().split()[0]` (either
indexing can raise `IndexError`), then evaluates a condition whose body is
`pass` — so on success the state is returned unchanged. -/
def _check_email_company_mismatch (email company_name : List Char)
    (st : AState) : Except AErr AState :=
  match (splitOnChar '@' email).get? 1 with
  | none => Except.error AErr.indexError
  | some _part =>
    match (pyWords (lowerStr company_name)).head? with
    | none => Except.error AErr.indexError
    | some _company_short => Except.ok st

/-- `_classify_risk` (lines 298-313) applied to the already-capped score. -/
def _classify_risk (risk_score : Int) : String :=
  if risk_score < 30 then "Legitimate"
  else if risk_score < 70 then "Suspicious"
  else "Fake"

/-- Rules 2-9 of `analyze` (lines 78-85), in source order, on one state.
Rules 3-6 receive the description lowercased once at line 73. -/
def pureRules (company_name job_title description : List Char)
    (website salary : Option (List Char)) (st : AState) : AState :=
  _check_company_legitimacy company_name
    (_check_description_quality description
      (_check_salary_unrealistic salary job_title
        (_check_unrealistic_benefits (lowerStr description)
          (_check_copy_paste_content (lowerStr description)
            (_check_urgency_language (lowerStr description)
              (_check_suspicious_keywords (lowerStr description)
                (_check_missing_website website company_name st)))))))

/-- `FraudDetectionAI.analyze` (lines 52-91): reset state, run the ten rules
in order, cap the score at 100 inside `_classify_risk` (line 306), and
return `(risk_score, classification, detected_flags)`. -/
def analyze (company_name job_title description email : List Char)
    (website salary : Option (List Char)) :
    Except AErr (Int × String × List DetectedFlag) :=
  match _check_email_domain (lowerStr email)
      { detected_flags := [], risk_score := 0 } with
  | Except.error e => Except.error e
  | Except.ok st1 =>
    match _check_email_company_mismatch email company_name
        (pureRules company_name job_title description website salary st1) with
    | Except.error e => Except.error e
    | Except.ok st10 =>
      Except.ok (min st10.risk_score 100,
                 _classify_risk (min st10.risk_score 100),
                 st10.detected_flags)

/-- The risk score of an analysis result, when one was produced. -/
def scoreOf : Except AErr (Int × String × List DetectedFlag) → Option Int
  | Except.ok r => some r.1
  | Except.error _ => none

/-- Whether an analysis result contains a flag of the given type. -/
def hasFlagType (r : Except AErr (Int × String × List DetectedFlag)) (t : String) : Bool :=
  match r with
  | Except.ok (_, _, f) => f.any (fun fl => fl.type == t)
  | Except.error _ => false

/-- The thirteen flag types rules 1-9 can emit (rule 10 emits none); the
strings are the `flag_type` literals of ai_logic.py. -/
def RULE_FLAG_TYPES : List String :=
  ["Free Email Domain", "Missing Company Website", "Payment Request",
   "Unrealistic Guarantees", "Unrealistic Work-from-Home Offer",
   "Excessive Urgency", "Generic/Copy-Paste Content", "Unrealistic Benefits",
   "Unrealistic Salary (Too High)", "Unrealistic Salary (Too Low)",
   "Poor Job Description Quality", "Poor Grammar/Spelling",
   "Suspicious Company Name Pattern"]

-- ========================================
-- Concrete inputs used by witnesses and counterexamples
-- ========================================

/-- A keyword-free, misspelling-free description longer than 100 characters,
used by several concrete inputs. -/
def longDesc : List Char :=
  s2l "We are seeking a dedicated person to join our team and support the daily operations of the department in our office."

/-- The scenario-2-style description: mentions "registration fee" and
"guaranteed". -/
def regFeeDesc : List Char :=
  s2l "Pay the registration fee now and you are guaranteed to be hired in our team this week."

/-- A 98-character keyword-free description: below the 100-character
quality threshold, but within 12 characters of it. -/
def shortDesc : List Char :=
  s2l "This is a role in our team where you can help with daily tasks and grow your skills over the year."

-- ========================================
-- Accumulator algebra
-- ========================================

theorem condAdd_score (b : Bool) (t : String) (sev : Severity) (imp : Int)
    (st : AState) :
    (condAdd b t sev imp st).risk_score = st.risk_score + (if b then imp else 0) := by
  cases b <;> simp [condAdd, _add_flag]

theorem condAdd_flags (b : Bool) (t : String) (sev : Severity) (imp : Int)
    (st : AState) :
    (condAdd b t sev imp st).detected_flags =
      st.detected_flags ++ (if b then [⟨t, sev⟩] else []) := by
  cases b <;> simp [condAdd, _add_flag]

theorem condAdd_score_mono (b : Bool) (t : String) (sev : Severity) {imp : Int}
    (himp : 0 ≤ imp) (st : AState) :
    st.risk_score ≤ (condAdd b t sev imp st).risk_score := by
  rw [condAdd_score]; cases b <;> simp <;> omega

theorem condAdd_score_mono2 {b b2 : Bool} (t : String) (sev : Severity) {imp : Int}
    (hb : b = true → b2 = true) (himp : 0 ≤ imp) {st st2 : AState}
    (h : st.risk_score ≤ st2.risk_score) :
    (condAdd b t sev imp st).risk_score ≤ (condAdd b2 t sev imp st2).risk_score := by
  rw [condAdd_score, condAdd_score]
  cases b with
  | false => cases b2 <;> simp <;> omega
  | true => rw [hb rfl]; simp; omega

theorem condAdd_flags_mono {fl : DetectedFlag} {st : AState}
    (h : fl ∈ st.detected_flags) (b : Bool) (t : String) (sev : Severity)
    (imp : Int) : fl ∈ (condAdd b t sev imp st).detected_flags := by
  rw [condAdd_flags]; exact List.mem_append_left _ h

theorem condAdd_flags_elim {fl : DetectedFlag} {b : Bool} {t : String}
    {sev : Severity} {imp : Int} {st : AState}
    (h : fl ∈ (condAdd b t sev imp st).detected_flags) :
    fl ∈ st.detected_flags ∨ (fl = ⟨t, sev⟩ ∧ b = true) := by
  rw [condAdd_flags] at h
  rcases List.mem_append.mp h with h | h
  · exact Or.inl h
  · cases b <;> simp_all

theorem condAdd_fires {b : Bool} (hb : b = true) (t : String) (sev : Severity)
    (imp : Int) (st : AState) :
    (⟨t, sev⟩ : DetectedFlag) ∈ (condAdd b t sev imp st).detected_flags := by
  rw [condAdd_flags, hb]; simp

theorem condAdd_score_fires {b : Bool} (hb : b = true) (t : String)
    (sev : Severity) (imp : Int) (st : AState) :
    (condAdd b t sev imp st).risk_score = st.risk_score + imp := by
  rw [condAdd_score, hb, if_pos rfl]

-- ========================================
-- Substring machinery
-- ========================================

theorem isPrefixB_iff (n h : List Char) :
    isPrefixB n h = true ↔ ∃ t, h = n ++ t := by
  induction n generalizing h with
  | nil => simp [isPrefixB]
  | cons a as ih =>
    cases h with
    | nil => simp [isPrefixB]
    | cons b bs =>
      simp only [isPrefixB, Bool.and_eq_true, beq_iff_eq, ih]
      constructor
      · rintro ⟨rfl, t, rfl⟩; exact ⟨t, rfl⟩
      · rintro ⟨t, ht⟩
        injection ht with h1 h2
        exact ⟨h1.symm ▸ rfl, t, h2⟩

theorem substrB_iff (n h : List Char) :
    substrB n h = true ↔ ∃ p t, h = p ++ n ++ t := by
  induction h with
  | nil =>
    simp only [substrB, List.isEmpty_iff]
    constructor
    · rintro rfl; exact ⟨[], [], rfl⟩
    · rintro ⟨p, t, ht⟩
      rcases List.append_eq_nil.mp (List.append_eq_nil.mp ht.symm).1 with ⟨-, h2⟩
      exact h2
  | cons c cs ih =>
    simp only [substrB, Bool.or_eq_true, isPrefixB_iff, ih]
    constructor
    · rintro (⟨t, ht⟩ | ⟨p, t, rfl⟩)
      · exact ⟨[], t, by simpa using ht⟩
      · exact ⟨c :: p, t, rfl⟩
    · rintro ⟨p, t, ht⟩
      cases p with
      | nil => exact Or.inl ⟨t, by simpa using ht⟩
      | cons q qs =>
        injection ht with h1 h2
        exact Or.inr ⟨qs, t, h2⟩

theorem substrB_append {n d : List Char} (h : substrB n d = true)
    (s : List Char) : substrB n (d ++ s) = true := by
  rw [substrB_iff] at h ⊢
  rcases h with ⟨p, t, rfl⟩
  exact ⟨p, t ++ s, by simp⟩

theorem substrB_trans {a b c : List Char} (h1 : substrB a b = true)
    (h2 : substrB b c = true) : substrB a c = true := by
  rw [substrB_iff] at h1 h2 ⊢
  rcases h1 with ⟨p, t, rfl⟩
  rcases h2 with ⟨q, r, rfl⟩
  exact ⟨q ++ p, t ++ r, by simp⟩

theorem anyKw_of_mem {kws : List (List Char)} {k d : List Char} (hk : k ∈ kws)
    (h : substrB k d = true) : anyKw kws d = true :=
  List.any_eq_true.mpr ⟨k, hk, h⟩

theorem anyKw_append {kws : List (List Char)} {d : List Char}
    (h : anyKw kws d = true) (s : List Char) : anyKw kws (d ++ s) = true := by
  rcases List.any_eq_true.mp h with ⟨k, hk, hs⟩
  exact List.any_eq_true.mpr ⟨k, hk, substrB_append hs s⟩

theorem length_filter_mono {α : Type} {p q : α → Bool}
    (h : ∀ a, p a = true → q a = true) (l : List α) :
    (l.filter p).length ≤ (l.filter q).length := by
  induction l with
  | nil => simp
  | cons a l ih =>
    by_cases hp : p a = true
    · rw [List.filter_cons_of_pos hp, List.filter_cons_of_pos (h a hp)]
      simpa using ih
    · rw [List.filter_cons_of_neg (by simpa using hp)]
      cases hq : q a
      · rw [List.filter_cons_of_neg (by simp [hq])]; exact ih
      · rw [List.filter_cons_of_pos hq]; simp; omega

theorem countKw_append (kws : List (List Char)) (d s : List Char) :
    countKw kws d ≤ countKw kws (d ++ s) :=
  length_filter_mono (fun k hk => substrB_append hk s) kws

theorem lowerStr_append (a b : List Char) :
    lowerStr (a ++ b) = lowerStr a ++ lowerStr b := List.map_append lowerChar a b

-- ========================================
-- Per-rule lemmas
-- ========================================

theorem email_ok_elim {e : List Char} {st st2 : AState}
    (h : _check_email_domain e st = Except.ok st2) :
    ∃ b, st2 = condAdd b "Free Email Domain" Severity.high 15 st := by
  unfold _check_email_domain at h
  cases h1 : (splitOnChar '@' e).get? 1 with
  | none => rw [h1] at h; exact Except.noConfusion h
  | some part => rw [h1] at h; exact ⟨_, (Except.ok.inj h).symm⟩

theorem email_error {e : List Char} (h : (splitOnChar '@' e).get? 1 = none)
    (st : AState) : _check_email_domain e st = Except.error AErr.indexError := by
  unfold _check_email_domain; rw [h]

theorem mismatch_ok_elim {e cn : List Char} {st st2 : AState}
    (h : _check_email_company_mismatch e cn st = Except.ok st2) : st2 = st := by
  unfold _check_email_company_mismatch at h
  cases h1 : (splitOnChar '@' e).get? 1 with
  | none => rw [h1] at h; exact Except.noConfusion h
  | some part =>
    rw [h1] at h
    cases h2 : (pyWords (lowerStr cn)).head? with
    | none => rw [h2] at h; exact Except.noConfusion h
    | some w => rw [h2] at h; exact (Except.ok.inj h).symm

theorem mismatch_ok_any {e cn : List Char} {st st2 : AState}
    (h : _check_email_company_mismatch e cn st = Except.ok st2) (st3 : AState) :
    _check_email_company_mismatch e cn st3 = Except.ok st3 := by
  unfold _check_email_company_mismatch at h ⊢
  cases h1 : (splitOnChar '@' e).get? 1 with
  | none => rw [h1] at h; exact Except.noConfusion h
  | some part =>
    rw [h1] at h
    cases h2 : (pyWords (lowerStr cn)).head? with
    | none => rw [h2] at h; exact Except.noConfusion h
    | some w => rfl

theorem salary_score_mono (sal : Option (List Char)) (jt : List Char)
    (st : AState) :
    st.risk_score ≤ (_check_salary_unrealistic sal jt st).risk_score := by
  unfold _check_salary_unrealistic
  rcases hv : parsedSalary sal with _ | v
  · simp only [hv]; exact le_refl _
  · simp only [hv]
    by_cases h1 : (jobBand jt).max < v
    · rw [if_pos h1]; simp only [_add_flag]; omega
    · rw [if_neg h1]
      by_cases h2 : v < (jobBand jt).min
      · rw [if_pos h2]; simp only [_add_flag]; omega
      · rw [if_neg h2]

theorem salary_score_mono2 (sal : Option (List Char)) (jt : List Char)
    {st st2 : AState} (h : st.risk_score ≤ st2.risk_score) :
    (_check_salary_unrealistic sal jt st).risk_score ≤
      (_check_salary_unrealistic sal jt st2).risk_score := by
  unfold _check_salary_unrealistic
  rcases hv : parsedSalary sal with _ | v
  · simp only [hv]; exact h
  · simp only [hv]
    by_cases h1 : (jobBand jt).max < v
    · rw [if_pos h1, if_pos h1]; simp only [_add_flag]; omega
    · rw [if_neg h1, if_neg h1]
      by_cases h2 : v < (jobBand jt).min
      · rw [if_pos h2, if_pos h2]; simp only [_add_flag]; omega
      · rw [if_neg h2, if_neg h2]; exact h

theorem salary_flags_mono (sal : Option (List Char)) (jt : List Char)
    {st : AState} {fl : DetectedFlag} (h : fl ∈ st.detected_flags) :
    fl ∈ (_check_salary_unrealistic sal jt st).detected_flags := by
  unfold _check_salary_unrealistic
  rcases hv : parsedSalary sal with _ | v
  · simp only [hv]; exact h
  · simp only [hv]
    by_cases h1 : (jobBand jt).max < v
    · rw [if_pos h1]; simp only [_add_flag, List.mem_append]; exact Or.inl h
    · rw [if_neg h1]
      by_cases h2 : v < (jobBand jt).min
      · rw [if_pos h2]; simp only [_add_flag, List.mem_append]; exact Or.inl h
      · rw [if_neg h2]; exact h

theorem salary_flags_elim {sal : Option (List Char)} {jt : List Char}
    {st : AState} {fl : DetectedFlag}
    (h : fl ∈ (_check_salary_unrealistic sal jt st).detected_flags) :
    fl ∈ st.detected_flags ∨
    (fl = ⟨"Unrealistic Salary (Too High)", Severity.high⟩ ∧
      ∃ v, parsedSalary sal = some v ∧ (jobBand jt).max < v) ∨
    (fl = ⟨"Unrealistic Salary (Too Low)", Severity.medium⟩ ∧
      ∃ v, parsedSalary sal = some v ∧ v < (jobBand jt).min ∧
        ¬ (jobBand jt).max < v) := by
  unfold _check_salary_unrealistic at h
  rcases hv : parsedSalary sal with _ | v
  · simp only [hv] at h; exact Or.inl h
  · simp only [hv] at h
    by_cases h1 : (jobBand jt).max < v
    · rw [if_pos h1] at h
      simp only [_add_flag, List.mem_append, List.mem_singleton] at h
      rcases h with h | h
      · exact Or.inl h
      · exact Or.inr (Or.inl ⟨h, v, rfl, h1⟩)
    · rw [if_neg h1] at h
      by_cases h2 : v < (jobBand jt).min
      · rw [if_pos h2] at h
        simp only [_add_flag, List.mem_append, List.mem_singleton] at h
        rcases h with h | h
        · exact Or.inl h
        · exact Or.inr (Or.inr ⟨h, v, rfl, h2, h1⟩)
      · rw [if_neg h2] at h; exact Or.inl h

theorem salary_skip {sal : Option (List Char)} (h : parsedSalary sal = none)
    (jt : List Char) (st : AState) :
    _check_salary_unrealistic sal jt st = st := by
  unfold _check_salary_unrealistic; rw [h]

theorem salary_in_range {sal : Option (List Char)} {jt : List Char} {v : Int}
    (hv : parsedSalary sal = some v) (h1 : (jobBand jt).min ≤ v)
    (h2 : v ≤ (jobBand jt).max) (st : AState) :
    _check_salary_unrealistic sal jt st = st := by
  unfold _check_salary_unrealistic
  simp only [hv]
  rw [if_neg (by omega), if_neg (by omega)]

-- ========================================
-- Chained lemmas about rules 2-9
-- ========================================

theorem pureRules_score_mono (company_name job_title description : List Char)
    (website salary : Option (List Char)) (st : AState) :
    st.risk_score ≤
      (pureRules company_name job_title description website salary st).risk_score := by
  unfold pureRules _check_missing_website _check_suspicious_keywords
    _check_urgency_language _check_copy_paste_content _check_unrealistic_benefits
    _check_description_quality _check_company_legitimacy
  refine le_trans ?_ (condAdd_score_mono _ _ _ (by decide) _)
  refine le_trans ?_ (condAdd_score_mono _ _ _ (by decide) _)
  refine le_trans ?_ (condAdd_score_mono _ _ _ (by decide) _)
  refine le_trans ?_ (salary_score_mono _ _ _)
  refine le_trans ?_ (condAdd_score_mono _ _ _ (by decide) _)
  refine le_trans ?_ (condAdd_score_mono _ _ _ (by decide) _)
  refine le_trans ?_ (condAdd_score_mono _ _ _ (by decide) _)
  refine le_trans ?_ (condAdd_score_mono _ _ _ (by decide) _)
  refine le_trans ?_ (condAdd_score_mono _ _ _ (by decide) _)
  refine le_trans ?_ (condAdd_score_mono _ _ _ (by decide) _)
  exact condAdd_score_mono _ _ _ (by decide) _

theorem pureRules_flags_mono (company_name job_title description : List Char)
    (website salary : Option (List Char)) {st : AState}
    {fl : DetectedFlag} (h : fl ∈ st.detected_flags) :
    fl ∈ (pureRules company_name job_title description website salary
      st).detected_flags := by
  unfold pureRules _check_missing_website _check_suspicious_keywords
    _check_urgency_language _check_copy_paste_content _check_unrealistic_benefits
    _check_description_quality _check_company_legitimacy
  apply condAdd_flags_mono
  apply condAdd_flags_mono
  apply condAdd_flags_mono
  apply salary_flags_mono
  apply condAdd_flags_mono
  apply condAdd_flags_mono
  apply condAdd_flags_mono
  apply condAdd_flags_mono
  apply condAdd_flags_mono
  apply condAdd_flags_mono
  exact condAdd_flags_mono h _ _ _ _

theorem tailRules_flags_mono (company_name job_title description : List Char)
    (salary : Option (List Char)) {st : AState}
    {fl : DetectedFlag} (h : fl ∈ st.detected_flags) :
    fl ∈ (_check_company_legitimacy company_name
      (_check_description_quality description
        (_check_salary_unrealistic salary job_title
          (_check_unrealistic_benefits (lowerStr description)
            (_check_copy_paste_content (lowerStr description)
              (_check_urgency_language (lowerStr description)
                st)))))).detected_flags := by
  unfold _check_urgency_language _check_copy_paste_content
    _check_unrealistic_benefits _check_description_quality
    _check_company_legitimacy
  apply condAdd_flags_mono
  apply condAdd_flags_mono
  apply condAdd_flags_mono
  apply salary_flags_mono
  apply condAdd_flags_mono
  apply condAdd_flags_mono
  exact condAdd_flags_mono h _ _ _ _

theorem tailRules_score_mono (company_name job_title description : List Char)
    (salary : Option (List Char)) (st : AState) :
    st.risk_score ≤ (_check_company_legitimacy company_name
      (_check_description_quality description
        (_check_salary_unrealistic salary job_title
          (_check_unrealistic_benefits (lowerStr description)
            (_check_copy_paste_content (lowerStr description)
              (_check_urgency_language (lowerStr description)
                st)))))).risk_score := by
  unfold _check_urgency_language _check_copy_paste_content
    _check_unrealistic_benefits _check_description_quality
    _check_company_legitimacy
  refine le_trans ?_ (condAdd_score_mono _ _ _ (by decide) _)
  refine le_trans ?_ (condAdd_score_mono _ _ _ (by decide) _)
  refine le_trans ?_ (condAdd_score_mono _ _ _ (by decide) _)
  refine le_trans ?_ (salary_score_mono _ _ _)
  refine le_trans ?_ (condAdd_score_mono _ _ _ (by decide) _)
  refine le_trans ?_ (condAdd_score_mono _ _ _ (by decide) _)
  exact condAdd_score_mono _ _ _ (by decide) _

theorem pureRules_flags_elim {company_name job_title description : List Char}
    {website salary : Option (List Char)} {st : AState}
    {fl : DetectedFlag}
    (h : fl ∈ (pureRules company_name job_title description website salary
      st).detected_flags) :
    fl ∈ st.detected_flags ∨
    fl = ⟨"Missing Company Website", Severity.high⟩ ∨
    fl = ⟨"Payment Request", Severity.critical⟩ ∨
    fl = ⟨"Unrealistic Guarantees", Severity.high⟩ ∨
    fl = ⟨"Unrealistic Work-from-Home Offer", Severity.high⟩ ∨
    fl = ⟨"Excessive Urgency", Severity.medium⟩ ∨
    fl = ⟨"Generic/Copy-Paste Content", Severity.medium⟩ ∨
    fl = ⟨"Unrealistic Benefits", Severity.high⟩ ∨
    (fl = ⟨"Unrealistic Salary (Too High)", Severity.high⟩ ∧
      ∃ v, parsedSalary salary = some v ∧ (jobBand job_title).max < v) ∨
    (fl = ⟨"Unrealistic Salary (Too Low)", Severity.medium⟩ ∧
      ∃ v, parsedSalary salary = some v ∧ v < (jobBand job_title).min ∧
        ¬ (jobBand job_title).max < v) ∨
    fl = ⟨"Poor Job Description Quality", Severity.medium⟩ ∨
    fl = ⟨"Poor Grammar/Spelling", Severity.low⟩ ∨
    (fl = ⟨"Suspicious Company Name Pattern", Severity.low⟩ ∧
      anyKw LEGITIMACY_KEYWORDS (lowerStr company_name) = true ∧
      4 < (lowerStr company_name).count ' ') := by
  unfold pureRules _check_missing_website _check_suspicious_keywords
    _check_urgency_language _check_copy_paste_content
    _check_unrealistic_benefits _check_description_quality
    _check_company_legitimacy at h
  rcases condAdd_flags_elim h with h | ⟨rfl, hc⟩
  · rcases condAdd_flags_elim h with h | ⟨rfl, -⟩
    · rcases condAdd_flags_elim h with h | ⟨rfl, -⟩
      · rcases salary_flags_elim h with h | ⟨rfl, hv⟩ | ⟨rfl, hv⟩
        · rcases condAdd_flags_elim h with h | ⟨rfl, -⟩
          · rcases condAdd_flags_elim h with h | ⟨rfl, -⟩
            · rcases condAdd_flags_elim h with h | ⟨rfl, -⟩
              · rcases condAdd_flags_elim h with h | ⟨rfl, -⟩
                · rcases condAdd_flags_elim h with h | ⟨rfl, -⟩
                  · rcases condAdd_flags_elim h with h | ⟨rfl, -⟩
                    · rcases condAdd_flags_elim h with h | ⟨rfl, -⟩
                      · exact Or.inl h
                      · exact Or.inr (Or.inl rfl)
                    · exact Or.inr (Or.inr (Or.inl rfl))
                  · exact Or.inr (Or.inr (Or.inr (Or.inl rfl)))
                · exact Or.inr (Or.inr (Or.inr (Or.inr (Or.inl rfl))))
              · exact Or.inr (Or.inr (Or.inr (Or.inr (Or.inr (Or.inl rfl)))))
            · exact Or.inr (Or.inr (Or.inr (Or.inr (Or.inr (Or.inr
                (Or.inl rfl))))))
          · exact Or.inr (Or.inr (Or.inr (Or.inr (Or.inr (Or.inr (Or.inr
              (Or.inl rfl)))))))
        · exact Or.inr (Or.inr (Or.inr (Or.inr (Or.inr (Or.inr (Or.inr
            (Or.inr (Or.inl ⟨rfl, hv⟩))))))))
        · exact Or.inr (Or.inr (Or.inr (Or.inr (Or.inr (Or.inr (Or.inr
            (Or.inr (Or.inr (Or.inl ⟨rfl, hv⟩)))))))))
      · exact Or.inr (Or.inr (Or.inr (Or.inr (Or.inr (Or.inr (Or.inr
          (Or.inr (Or.inr (Or.inr (Or.inl rfl))))))))))
    · exact Or.inr (Or.inr (Or.inr (Or.inr (Or.inr (Or.inr (Or.inr
        (Or.inr (Or.inr (Or.inr (Or.inr (Or.inl rfl)))))))))))
  · rw [Bool.and_eq_true] at hc
    exact Or.inr (Or.inr (Or.inr (Or.inr (Or.inr (Or.inr (Or.inr
      (Or.inr (Or.inr (Or.inr (Or.inr (Or.inr
        ⟨rfl, hc.1, of_decide_eq_true hc.2⟩)))))))))))

-- ========================================
-- Inversion of analyze
-- ========================================

theorem analyze_ok_elim {company_name job_title description email : List Char}
    {website salary : Option (List Char)} {s : Int} {c : String}
    {f : List DetectedFlag}
    (h : analyze company_name job_title description email website salary =
      Except.ok (s, c, f)) :
    ∃ st1 : AState,
      _check_email_domain (lowerStr email)
        { detected_flags := [], risk_score := 0 } = Except.ok st1 ∧
      _check_email_company_mismatch email company_name
        (pureRules company_name job_title description website salary st1) =
        Except.ok (pureRules company_name job_title description website salary st1) ∧
      s = min (pureRules company_name job_title description website salary
        st1).risk_score 100 ∧
      c = _classify_risk (min (pureRules company_name job_title description
        website salary st1).risk_score 100) ∧
      f = (pureRules company_name job_title description website salary
        st1).detected_flags := by
  unfold analyze at h
  cases h1 : _check_email_domain (lowerStr email)
      { detected_flags := [], risk_score := 0 } with
  | error e => rw [h1] at h; exact Except.noConfusion h
  | ok st1 =>
    simp only [h1] at h
    cases h2 : _check_email_company_mismatch email company_name
        (pureRules company_name job_title description website salary st1) with
    | error e => simp only [h2] at h; exact Except.noConfusion h
    | ok st10 =>
      simp only [h2] at h
      have h3 := mismatch_ok_elim h2
      subst h3
      have h4 := Except.ok.inj h
      simp only [Prod.mk.injEq] at h4
      obtain ⟨hs, hc, hf⟩ := h4
      exact ⟨st1, rfl, h2, hs.symm, hc.symm, hf.symm⟩

theorem analyze_flags_elim {company_name job_title description email : List Char}
    {website salary : Option (List Char)} {s : Int} {c : String}
    {f : List DetectedFlag}
    (h : analyze company_name job_title description email website salary =
      Except.ok (s, c, f))
    {fl : DetectedFlag} (hfl : fl ∈ f) :
    fl = ⟨"Free Email Domain", Severity.high⟩ ∨
    fl = ⟨"Missing Company Website", Severity.high⟩ ∨
    fl = ⟨"Payment Request", Severity.critical⟩ ∨
    fl = ⟨"Unrealistic Guarantees", Severity.high⟩ ∨
    fl = ⟨"Unrealistic Work-from-Home Offer", Severity.high⟩ ∨
    fl = ⟨"Excessive Urgency", Severity.medium⟩ ∨
    fl = ⟨"Generic/Copy-Paste Content", Severity.medium⟩ ∨
    fl = ⟨"Unrealistic Benefits", Severity.high⟩ ∨
    (fl = ⟨"Unrealistic Salary (Too High)", Severity.high⟩ ∧
      ∃ v, parsedSalary salary = some v ∧ (jobBand job_title).max < v) ∨
    (fl = ⟨"Unrealistic Salary (Too Low)", Severity.medium⟩ ∧
      ∃ v, parsedSalary salary = some v ∧ v < (jobBand job_title).min ∧
        ¬ (jobBand job_title).max < v) ∨
    fl = ⟨"Poor Job Description Quality", Severity.medium⟩ ∨
    fl = ⟨"Poor Grammar/Spelling", Severity.low⟩ ∨
    (fl = ⟨"Suspicious Company Name Pattern", Severity.low⟩ ∧
      anyKw LEGITIMACY_KEYWORDS (lowerStr company_name) = true ∧
      4 < (lowerStr company_name).count ' ') := by
  obtain ⟨st1, h1, h2, hs, hc, hf⟩ := analyze_ok_elim h
  subst hf
  obtain ⟨b, rfl⟩ := email_ok_elim h1
  rcases pureRules_flags_elim hfl with hst | rest
  · rcases condAdd_flags_elim hst with hst | ⟨rfl, -⟩
    · simp at hst
    · exact Or.inl rfl
  · rcases rest with h | h | h | h | h | h | h | h | h | h | h | h <;>
      [exact Or.inr (Or.inl h);
       exact Or.inr (Or.inr (Or.inl h));
       exact Or.inr (Or.inr (Or.inr (Or.inl h)));
       exact Or.inr (Or.inr (Or.inr (Or.inr (Or.inl h))));
       exact Or.inr (Or.inr (Or.inr (Or.inr (Or.inr (Or.inl h)))));
       exact Or.inr (Or.inr (Or.inr (Or.inr (Or.inr (Or.inr (Or.inl h))))));
       exact Or.inr (Or.inr (Or.inr (Or.inr (Or.inr (Or.inr (Or.inr
         (Or.inl h)))))));
       exact Or.inr (Or.inr (Or.inr (Or.inr (Or.inr (Or.inr (Or.inr
         (Or.inr (Or.inl h))))))));
       exact Or.inr (Or.inr (Or.inr (Or.inr (Or.inr (Or.inr (Or.inr
         (Or.inr (Or.inr (Or.inl h)))))))));
       exact Or.inr (Or.inr (Or.inr (Or.inr (Or.inr (Or.inr (Or.inr
         (Or.inr (Or.inr (Or.inr (Or.inl h))))))))));
       exact Or.inr (Or.inr (Or.inr (Or.inr (Or.inr (Or.inr (Or.inr
         (Or.inr (Or.inr (Or.inr (Or.inr (Or.inl h)))))))))));
       exact Or.inr (Or.inr (Or.inr (Or.inr (Or.inr (Or.inr (Or.inr
         (Or.inr (Or.inr (Or.inr (Or.inr (Or.inr h)))))))))))]

-- ========================================
-- Classifier and split/lower lemmas
-- ========================================

theorem classify_risk_iff (x : Int) :
    (_classify_risk x = "Legitimate" ↔ x < 30) ∧
    (_classify_risk x = "Suspicious" ↔ 30 ≤ x ∧ x < 70) ∧
    (_classify_risk x = "Fake" ↔ 70 ≤ x) := by
  unfold _classify_risk
  by_cases h30 : x < 30
  · rw [if_pos h30]
    exact ⟨⟨fun _ => h30, fun _ => rfl⟩,
      ⟨fun hh => absurd hh (by decide), fun hh => absurd h30 (by omega)⟩,
      ⟨fun hh => absurd hh (by decide), fun hh => absurd h30 (by omega)⟩⟩
  · rw [if_neg h30]
    by_cases h70 : x < 70
    · rw [if_pos h70]
      exact ⟨⟨fun hh => absurd hh (by decide), fun hh => absurd hh (by omega)⟩,
        ⟨fun _ => ⟨by omega, h70⟩, fun _ => rfl⟩,
        ⟨fun hh => absurd hh (by decide), fun hh => absurd h70 (by omega)⟩⟩
    · rw [if_neg h70]
      exact ⟨⟨fun hh => absurd hh (by decide), fun hh => absurd hh (by omega)⟩,
        ⟨fun hh => absurd hh (by decide), fun hh => absurd hh.2 (by omega)⟩,
        ⟨fun _ => by omega, fun _ => rfl⟩⟩

theorem lowerChar_at {c : Char} (h : lowerChar c = '@') : c = '@' := by
  unfold lowerChar at h
  split at h
  · rename_i hc
    exfalso
    have h4 : ∀ hh : (c.toNat + 32).isValidChar,
        (Char.ofNatAux (c.toNat + 32) hh).toNat = c.toNat + 32 := fun hh => rfl
    have h2 := congrArg Char.toNat h
    rw [h4] at h2
    have h3 : ('@').toNat = 64 := rfl
    omega
  · exact h

theorem splitOnChar_no_sep {sep : Char} {l : List Char} (h : sep ∉ l) :
    splitOnChar sep l = [l] := by
  induction l with
  | nil => rfl
  | cons c t ih =>
    simp only [List.mem_cons, not_or] at h
    unfold splitOnChar
    simp only [ih h.2]
    rw [if_neg (by simp only [beq_iff_eq]; exact fun hh => h.1 hh.symm)]

-- ========================================
-- Claim theorems
-- ========================================

/-- C1: whenever `analyze` returns a result, the returned risk score is an
integer in the inclusive range 0..100: the accumulated sum of the fired
flags' non-negative impacts is capped at 100 by `_classify_risk`, and it
never goes below 0. -/
theorem analyze_risk_score_bounds
    (company_name job_title description email : List Char)
    (website salary : Option (List Char)) (s : Int) (c : String)
    (f : List DetectedFlag)
    (h : analyze company_name job_title description email website salary =
      Except.ok (s, c, f)) :
    0 ≤ s ∧ s ≤ 100 := by
  obtain ⟨st1, h1, h2, hs, hc, hf⟩ := analyze_ok_elim h
  obtain ⟨b, rfl⟩ := email_ok_elim h1
  have h3 : (0 : Int) ≤ (condAdd b "Free Email Domain" Severity.high 15
      { detected_flags := [], risk_score := 0 }).risk_score := by
    rw [condAdd_score]; cases b <;> simp
  have h4 := pureRules_score_mono company_name job_title description website
    salary (condAdd b "Free Email Domain" Severity.high 15
      { detected_flags := [], risk_score := 0 })
  subst hs
  exact ⟨le_min (le_trans h3 h4) (by norm_num), min_le_right _ _⟩

/-- Witness for C1: at the scenario-1 input the bounds hold for the returned
score 27. -/
theorem analyze_risk_score_bounds_witness : (0 : Int) ≤ 27 ∧ (27 : Int) ≤ 100 :=
  analyze_risk_score_bounds (s2l "Acme") (s2l "Manager") longDesc
    (s2l "jobs@gmail.com") none none 27 "Legitimate"
    [⟨"Free Email Domain", Severity.high⟩,
     ⟨"Missing Company Website", Severity.high⟩] (by decide)

/-- C2: whenever `analyze` returns a result, the classification is exactly
determined by the clamped score: Legitimate iff score < 30, Suspicious iff
30 <= score < 70, Fake iff score >= 70 — so 30 is Suspicious, 70 is Fake,
and the three tiers are exhaustive and non-overlapping. -/
theorem analyze_classification_thresholds
    (company_name job_title description email : List Char)
    (website salary : Option (List Char)) (s : Int)
    (c : String) (f : List DetectedFlag)
    (h : analyze company_name job_title description email website salary =
      Except.ok (s, c, f)) :
    (c = "Legitimate" ↔ s < 30) ∧
    (c = "Suspicious" ↔ 30 ≤ s ∧ s < 70) ∧
    (c = "Fake" ↔ 70 ≤ s) := by
  obtain ⟨st1, h1, h2, hs, hc, hf⟩ := analyze_ok_elim h
  subst hs
  subst hc
  exact classify_risk_iff _

/-- Witness for C2: at the scenario-1 input the three equivalences hold for
score 27 and classification Legitimate. -/
theorem analyze_classification_thresholds_witness :
    (("Legitimate" : String) = "Legitimate" ↔ (27 : Int) < 30) ∧
    (("Legitimate" : String) = "Suspicious" ↔ (30 : Int) ≤ 27 ∧ (27 : Int) < 70) ∧
    (("Legitimate" : String) = "Fake" ↔ (70 : Int) ≤ 27) :=
  analyze_classification_thresholds (s2l "Acme") (s2l "Manager") longDesc
    (s2l "jobs@gmail.com") none none 27 "Legitimate"
    [⟨"Free Email Domain", Severity.high⟩,
     ⟨"Missing Company Website", Severity.high⟩] (by decide)

/-- C7: on any input whose email contains no at sign, `analyze` fails the
whole call with the distinguishable `IndexError` instead of returning a
result — no partial result, no guessed domain. -/
theorem analyze_malformed_email_errors
    (company_name job_title description email : List Char)
    (website salary : Option (List Char))
    (h : '@' ∉ email) :
    analyze company_name job_title description email website salary =
      Except.error AErr.indexError := by
  have h2 : '@' ∉ lowerStr email := by
    intro hmem
    rcases List.mem_map.mp hmem with ⟨c, hcmem, hc⟩
    exact h ((lowerChar_at hc) ▸ hcmem)
  have h3 : splitOnChar '@' (lowerStr email) = [lowerStr email] :=
    splitOnChar_no_sep h2
  unfold analyze
  rw [email_error (by rw [h3]; rfl) _]

/-- Witness for C7: an email with no at sign makes `analyze` fail. -/
theorem analyze_malformed_email_errors_witness :
    analyze (s2l "Acme") (s2l "Manager") longDesc (s2l "abc")
      (some (s2l "www.acme.com")) none = Except.error AErr.indexError :=
  analyze_malformed_email_errors (s2l "Acme") (s2l "Manager") longDesc
    (s2l "abc") (some (s2l "www.acme.com")) none (by decide)

/-- C9: the email/company-mismatch check is a no-op on the observable
result: whenever it returns, the state is unchanged, and consequently every
flag in any `analyze` result has one of the thirteen types emitted by rules
1-9. -/
theorem mismatch_check_is_noop :
    (∀ (email company_name : List Char) (st st2 : AState),
      _check_email_company_mismatch email company_name st = Except.ok st2 →
        st2 = st) ∧
    (∀ (company_name job_title description email : List Char)
      (website salary : Option (List Char)) (s : Int) (c : String)
      (f : List DetectedFlag),
      analyze company_name job_title description email website salary =
        Except.ok (s, c, f) →
        ∀ fl ∈ f, fl.type ∈ RULE_FLAG_TYPES) := by
  constructor
  · exact fun e cn st st2 h => mismatch_ok_elim h
  · intro company_name job_title description email website salary s c f h fl hfl
    rcases analyze_flags_elim h hfl with
      h | h | h | h | h | h | h | h | ⟨h, -⟩ | ⟨h, -⟩ | h | h | ⟨h, -⟩ <;>
      subst h <;> decide

/-- Witness for C9: the no-op conjunct applied at a concrete state, and the
type-membership conjunct applied at the scenario-1 result. -/
theorem mismatch_check_is_noop_witness :
    ({ detected_flags := [], risk_score := 0 } : AState) =
      { detected_flags := [], risk_score := 0 } ∧
    ("Free Email Domain" : String) ∈ RULE_FLAG_TYPES :=
  ⟨mismatch_check_is_noop.1 (s2l "a@acme.com") (s2l "Acme")
      { detected_flags := [], risk_score := 0 }
      { detected_flags := [], risk_score := 0 } (by decide),
   mismatch_check_is_noop.2 (s2l "Acme") (s2l "Manager") longDesc
      (s2l "jobs@gmail.com") none none 27 "Legitimate"
      [⟨"Free Email Domain", Severity.high⟩,
       ⟨"Missing Company Website", Severity.high⟩] (by decide)
      ⟨"Free Email Domain", Severity.high⟩ (by decide)⟩

/-- C10: there is an input meeting the spec's preconditions (all required
fields non-empty, email with exactly one at-delimited domain) on which
`analyze` still fails: a company name consisting only of whitespace makes
the dead mismatch check's `company_name.lower().split()[0]` raise
`IndexError`. -/
theorem analyze_whitespace_company_errors :
    s2l " " ≠ [] ∧
    (s2l " ").all isPySpace = true ∧
    (s2l "a@acme.com").count '@' = 1 ∧
    s2l "Manager" ≠ [] ∧
    longDesc ≠ [] ∧
    analyze (s2l " ") (s2l "Manager") longDesc (s2l "a@acme.com")
      (some (s2l "www.acme.com")) none = Except.error AErr.indexError :=
  ⟨by decide, by decide, by decide, by decide, by decide, by decide⟩

/-- C3: whenever `analyze` returns a result for an input whose lower-cased
description contains both "registration fee" and "guaranteed", whose email
is hr@gmail.com and whose website is absent, the flag list contains Payment
Request, Unrealistic Guarantees, Free Email Domain and Missing Company
Website (impacts 25+18+15+12 = 70), so the score is at least 70 and the
classification is Fake. -/
theorem analyze_registration_fee_guaranteed_fake
    (company_name job_title description : List Char)
    (salary : Option (List Char)) (s : Int) (c : String)
    (f : List DetectedFlag)
    (h : analyze company_name job_title description (s2l "hr@gmail.com")
      none salary = Except.ok (s, c, f))
    (hd1 : substrB (s2l "registration fee") (lowerStr description) = true)
    (hd2 : substrB (s2l "guaranteed") (lowerStr description) = true) :
    (⟨"Payment Request", Severity.critical⟩ : DetectedFlag) ∈ f ∧
    (⟨"Unrealistic Guarantees", Severity.high⟩ : DetectedFlag) ∈ f ∧
    (⟨"Free Email Domain", Severity.high⟩ : DetectedFlag) ∈ f ∧
    (⟨"Missing Company Website", Severity.high⟩ : DetectedFlag) ∈ f ∧
    70 ≤ s ∧ c = "Fake" := by
  obtain ⟨st1, h1, h2, hs, hc, hf⟩ := analyze_ok_elim h
  have he2 : _check_email_domain (lowerStr (s2l "hr@gmail.com"))
      { detected_flags := [], risk_score := 0 } =
      Except.ok (⟨[⟨"Free Email Domain", Severity.high⟩], 15⟩ : AState) := by
    decide
  rw [he2] at h1
  have hst1 := Except.ok.inj h1
  subst hst1
  have hreg : substrB (s2l "registration") (lowerStr description) = true :=
    substrB_trans (by decide) hd1
  have hm : anyKw SUSPICIOUS_KEYWORDS_money_request (lowerStr description) = true :=
    anyKw_of_mem (by decide) hreg
  have hg2 : anyKw SUSPICIOUS_KEYWORDS_guaranteed (lowerStr description) = true :=
    anyKw_of_mem (by decide) hd2
  have hW : _check_missing_website none company_name
      (⟨[⟨"Free Email Domain", Severity.high⟩], 15⟩ : AState) =
      (⟨[⟨"Free Email Domain", Severity.high⟩,
         ⟨"Missing Company Website", Severity.high⟩], 27⟩ : AState) := rfl
  have hpr : pureRules company_name job_title description none salary
      (⟨[⟨"Free Email Domain", Severity.high⟩], 15⟩ : AState) =
      _check_company_legitimacy company_name
        (_check_description_quality description
          (_check_salary_unrealistic salary job_title
            (_check_unrealistic_benefits (lowerStr description)
              (_check_copy_paste_content (lowerStr description)
                (_check_urgency_language (lowerStr description)
                  (_check_suspicious_keywords (lowerStr description)
                    (⟨[⟨"Free Email Domain", Severity.high⟩,
                       ⟨"Missing Company Website", Severity.high⟩], 27⟩ :
                      AState))))))) := by
    unfold pureRules
    rw [hW]
  have hKs : 70 ≤ (_check_suspicious_keywords (lowerStr description)
      (⟨[⟨"Free Email Domain", Severity.high⟩,
         ⟨"Missing Company Website", Severity.high⟩], 27⟩ : AState)).risk_score := by
    unfold _check_suspicious_keywords
    refine le_trans ?_ (condAdd_score_mono _ _ _ (by decide) _)
    rw [condAdd_score_fires hg2, condAdd_score_fires hm]
    decide
  have hKm1 : (⟨"Payment Request", Severity.critical⟩ : DetectedFlag) ∈
      (_check_suspicious_keywords (lowerStr description)
        (⟨[⟨"Free Email Domain", Severity.high⟩,
           ⟨"Missing Company Website", Severity.high⟩], 27⟩ :
          AState)).detected_flags := by
    unfold _check_suspicious_keywords
    apply condAdd_flags_mono
    apply condAdd_flags_mono
    exact condAdd_fires hm _ _ _ _
  have hKm2 : (⟨"Unrealistic Guarantees", Severity.high⟩ : DetectedFlag) ∈
      (_check_suspicious_keywords (lowerStr description)
        (⟨[⟨"Free Email Domain", Severity.high⟩,
           ⟨"Missing Company Website", Severity.high⟩], 27⟩ :
          AState)).detected_flags := by
    unfold _check_suspicious_keywords
    apply condAdd_flags_mono
    exact condAdd_fires hg2 _ _ _ _
  have hKm3 : (⟨"Free Email Domain", Severity.high⟩ : DetectedFlag) ∈
      (_check_suspicious_keywords (lowerStr description)
        (⟨[⟨"Free Email Domain", Severity.high⟩,
           ⟨"Missing Company Website", Severity.high⟩], 27⟩ :
          AState)).detected_flags := by
    unfold _check_suspicious_keywords
    apply condAdd_flags_mono
    apply condAdd_flags_mono
    apply condAdd_flags_mono
    decide
  have hKm4 : (⟨"Missing Company Website", Severity.high⟩ : DetectedFlag) ∈
      (_check_suspicious_keywords (lowerStr description)
        (⟨[⟨"Free Email Domain", Severity.high⟩,
           ⟨"Missing Company Website", Severity.high⟩], 27⟩ :
          AState)).detected_flags := by
    unfold _check_suspicious_keywords
    apply condAdd_flags_mono
    apply condAdd_flags_mono
    apply condAdd_flags_mono
    decide
  have h9 : 70 ≤ (pureRules company_name job_title description none salary
      (⟨[⟨"Free Email Domain", Severity.high⟩], 15⟩ : AState)).risk_score := by
    rw [hpr]
    exact le_trans hKs (tailRules_score_mono _ _ _ _ _)
  subst hf
  subst hs
  subst hc
  refine ⟨?_, ?_, ?_, ?_, ?_, ?_⟩
  · rw [hpr]; exact tailRules_flags_mono _ _ _ _ hKm1
  · rw [hpr]; exact tailRules_flags_mono _ _ _ _ hKm2
  · rw [hpr]; exact tailRules_flags_mono _ _ _ _ hKm3
  · rw [hpr]; exact tailRules_flags_mono _ _ _ _ hKm4
  · exact le_min h9 (by norm_num)
  · exact (classify_risk_iff _).2.2.mpr (le_min h9 (by norm_num))

/-- Witness for C3 at the scenario-2-style input, where the score is 76. -/
theorem analyze_registration_fee_guaranteed_fake_witness :
    (⟨"Payment Request", Severity.critical⟩ : DetectedFlag) ∈
      [⟨"Free Email Domain", Severity.high⟩,
       ⟨"Missing Company Website", Severity.high⟩,
       ⟨"Payment Request", Severity.critical⟩,
       ⟨"Unrealistic Guarantees", Severity.high⟩,
       ⟨"Poor Job Description Quality", Severity.medium⟩] ∧
    (⟨"Unrealistic Guarantees", Severity.high⟩ : DetectedFlag) ∈
      [⟨"Free Email Domain", Severity.high⟩,
       ⟨"Missing Company Website", Severity.high⟩,
       ⟨"Payment Request", Severity.critical⟩,
       ⟨"Unrealistic Guarantees", Severity.high⟩,
       ⟨"Poor Job Description Quality", Severity.medium⟩] ∧
    (⟨"Free Email Domain", Severity.high⟩ : DetectedFlag) ∈
      [⟨"Free Email Domain", Severity.high⟩,
       ⟨"Missing Company Website", Severity.high⟩,
       ⟨"Payment Request", Severity.critical⟩,
       ⟨"Unrealistic Guarantees", Severity.high⟩,
       ⟨"Poor Job Description Quality", Severity.medium⟩] ∧
    (⟨"Missing Company Website", Severity.high⟩ : DetectedFlag) ∈
      [⟨"Free Email Domain", Severity.high⟩,
       ⟨"Missing Company Website", Severity.high⟩,
       ⟨"Payment Request", Severity.critical⟩,
       ⟨"Unrealistic Guarantees", Severity.high⟩,
       ⟨"Poor Job Description Quality", Severity.medium⟩] ∧
    (70 : Int) ≤ 76 ∧ ("Fake" : String) = "Fake" :=
  analyze_registration_fee_guaranteed_fake (s2l "Acme") (s2l "Manager")
    regFeeDesc none 76 "Fake"
    [⟨"Free Email Domain", Severity.high⟩,
     ⟨"Missing Company Website", Severity.high⟩,
     ⟨"Payment Request", Severity.critical⟩,
     ⟨"Unrealistic Guarantees", Severity.high⟩,
     ⟨"Poor Job Description Quality", Severity.medium⟩]
    (by decide) (by decide) (by decide)

/-- C4: in any `analyze` result at most one of the two salary flags appears,
and when the parsed salary value lies inside the inclusive band of the
job-level inferred from the title, neither appears. -/
theorem analyze_salary_flags_exclusive
    (company_name job_title description email : List Char)
    (website salary : Option (List Char)) (s : Int) (c : String)
    (f : List DetectedFlag)
    (h : analyze company_name job_title description email website salary =
      Except.ok (s, c, f)) :
    (¬ ((∃ fl ∈ f, fl.type = "Unrealistic Salary (Too High)") ∧
        (∃ fl ∈ f, fl.type = "Unrealistic Salary (Too Low)"))) ∧
    (∀ v : Int, parsedSalary salary = some v →
      (jobBand job_title).min ≤ v → v ≤ (jobBand job_title).max →
      ∀ fl ∈ f, fl.type ≠ "Unrealistic Salary (Too High)" ∧
        fl.type ≠ "Unrealistic Salary (Too Low)") := by
  constructor
  · rintro ⟨⟨fl1, hfl1, ht1⟩, ⟨fl2, hfl2, ht2⟩⟩
    have P1 : ∃ v, parsedSalary salary = some v ∧ (jobBand job_title).max < v := by
      rcases analyze_flags_elim h hfl1 with
        h1 | h1 | h1 | h1 | h1 | h1 | h1 | h1 | ⟨h1, hv⟩ | ⟨h1, hv⟩ | h1 | h1 |
        ⟨h1, hv⟩
      all_goals try (subst h1; exact absurd ht1 (by decide))
      exact hv
    have P2 : ∃ v, parsedSalary salary = some v ∧ v < (jobBand job_title).min ∧
        ¬ (jobBand job_title).max < v := by
      rcases analyze_flags_elim h hfl2 with
        h1 | h1 | h1 | h1 | h1 | h1 | h1 | h1 | ⟨h1, hv⟩ | ⟨h1, hv⟩ | h1 | h1 |
        ⟨h1, hv⟩
      all_goals try (subst h1; exact absurd ht2 (by decide))
      exact hv
    rcases P1 with ⟨v1, hv1, hb1⟩
    rcases P2 with ⟨v2, hv2, hb2, hnb2⟩
    rw [hv1] at hv2
    injection hv2 with hv2
    subst hv2
    exact hnb2 hb1
  · intro v hv hmin hmax fl hfl
    rcases analyze_flags_elim h hfl with
      h1 | h1 | h1 | h1 | h1 | h1 | h1 | h1 | ⟨h1, v2, hv2, hb⟩ |
      ⟨h1, v2, hv2, hb, hnb⟩ | h1 | h1 | ⟨h1, -⟩
    all_goals try (subst h1; exact ⟨by decide, by decide⟩)
    · rw [hv] at hv2
      injection hv2 with he2
      subst he2
      exact absurd hb (by omega)
    · rw [hv] at hv2
      injection hv2 with he2
      subst he2
      exact absurd hb (by omega)

/-- Witness for C4 at an input whose salary 600000 lies inside the mid-level
band, so no salary flag appears and the two parts of the theorem hold. -/
theorem analyze_salary_flags_exclusive_witness :
    (¬ ((∃ fl ∈ ([] : List DetectedFlag),
          fl.type = "Unrealistic Salary (Too High)") ∧
        (∃ fl ∈ ([] : List DetectedFlag),
          fl.type = "Unrealistic Salary (Too Low)"))) ∧
    (∀ v : Int, parsedSalary (some (s2l "600000 per year")) = some v →
      (jobBand (s2l "Manager")).min ≤ v → v ≤ (jobBand (s2l "Manager")).max →
      ∀ fl ∈ ([] : List DetectedFlag),
        fl.type ≠ "Unrealistic Salary (Too High)" ∧
        fl.type ≠ "Unrealistic Salary (Too Low)") :=
  analyze_salary_flags_exclusive (s2l "Acme") (s2l "Manager") longDesc
    (s2l "a@acme.com") (some (s2l "www.acme.com"))
    (some (s2l "600000 per year")) 0 "Legitimate" [] (by decide)

/-- C6 counterexample: the company name "alpha beta gamma delta private"
contains the legitimacy keyword "private" and has five space-separated
words (more than 4), yet `analyze` succeeds without emitting Suspicious
Company Name Pattern, because the code requires more than 4 space
characters and this name has only 4. -/
theorem company_pattern_words_counterexample :
    anyKw LEGITIMACY_KEYWORDS
      (lowerStr (s2l "alpha beta gamma delta private")) = true ∧
    4 < (pyWords (lowerStr (s2l "alpha beta gamma delta private"))).length ∧
    (analyze (s2l "alpha beta gamma delta private") (s2l "Manager") longDesc
      (s2l "a@acme.com") (some (s2l "www.acme.com")) none).isOk = true ∧
    hasFlagType (analyze (s2l "alpha beta gamma delta private")
      (s2l "Manager") longDesc (s2l "a@acme.com")
      (some (s2l "www.acme.com")) none) "Suspicious Company Name Pattern" =
      false :=
  ⟨by decide, by decide, by decide, by decide⟩

/-- C6 (amended): whenever `analyze` returns a result, the flag Suspicious
Company Name Pattern appears exactly when the lower-cased company name
contains one of the legitimacy keywords AND contains more than 4 space
characters (the code counts spaces, not space-separated words). -/
theorem analyze_company_pattern_iff_spaces
    (company_name job_title description email : List Char)
    (website salary : Option (List Char)) (s : Int) (c : String)
    (f : List DetectedFlag)
    (h : analyze company_name job_title description email website salary =
      Except.ok (s, c, f)) :
    ((⟨"Suspicious Company Name Pattern", Severity.low⟩ : DetectedFlag) ∈ f ↔
      (anyKw LEGITIMACY_KEYWORDS (lowerStr company_name) = true ∧
       4 < (lowerStr company_name).count ' ')) := by
  constructor
  · intro hfl
    rcases analyze_flags_elim h hfl with
      h1 | h1 | h1 | h1 | h1 | h1 | h1 | h1 | ⟨h1, -⟩ | ⟨h1, -⟩ | h1 | h1 |
      ⟨-, hcond⟩
    all_goals try exact absurd h1 (by decide)
    exact hcond
  · rintro ⟨ha, hcnt⟩
    obtain ⟨st1, h1, h2, hs, hc, hf⟩ := analyze_ok_elim h
    subst hf
    unfold pureRules _check_company_legitimacy
    exact condAdd_fires
      (by rw [Bool.and_eq_true]; exact ⟨ha, decide_eq_true hcnt⟩) _ _ _ _

/-- Witness for the amended C6: a company name with six spaces and the
keyword "private" makes the flag fire, and the equivalence holds. -/
theorem analyze_company_pattern_iff_spaces_witness :
    ((⟨"Suspicious Company Name Pattern", Severity.low⟩ : DetectedFlag) ∈
        [(⟨"Suspicious Company Name Pattern", Severity.low⟩ : DetectedFlag)] ↔
      (anyKw LEGITIMACY_KEYWORDS
          (lowerStr (s2l "the best private team in all india")) = true ∧
       4 < (lowerStr (s2l "the best private team in all india")).count ' ')) :=
  analyze_company_pattern_iff_spaces
    (s2l "the best private team in all india") (s2l "Manager") longDesc
    (s2l "a@acme.com") (some (s2l "www.acme.com")) none 3 "Legitimate"
    [⟨"Suspicious Company Name Pattern", Severity.low⟩] (by decide)

/-- C8: an unparsable salary (no digits-and-commas token, or a first token
that fails integer parsing) makes the salary rule a silent no-op, and the
whole analysis result equals the one with salary absent. -/
theorem analyze_unparsable_salary_skipped
    (company_name job_title description email : List Char)
    (website : Option (List Char)) (sal : List Char)
    (hbad : (tokenize isNumTokenChar sal).head? = none ∨
      ∀ tok, (tokenize isNumTokenChar sal).head? = some tok →
        digitsToNat? (tok.filter (fun ch => !(ch == ','))) = none) :
    (∀ st : AState, _check_salary_unrealistic (some sal) job_title st = st) ∧
    analyze company_name job_title description email website (some sal) =
      analyze company_name job_title description email website none := by
  have hps : parsedSalary (some sal) = none := by
    simp only [parsedSalary]
    by_cases hemp : sal.isEmpty
    · rw [if_pos hemp]
    · rw [if_neg hemp]
      rcases hbad with hb | hb
      · simp only [hb]
      · rcases htok : (tokenize isNumTokenChar sal).head? with _ | tok
        · simp only [htok]
        · simp only [htok, hb tok htok]
  have hpn : parsedSalary none = none := rfl
  refine ⟨fun st => salary_skip hps job_title st, ?_⟩
  unfold analyze pureRules
  simp only [salary_skip hps, salary_skip hpn]

/-- Witness for C8: the all-letters salary "abc" is skipped and the result
equals the salary-free result. -/
theorem analyze_unparsable_salary_skipped_witness :
    (∀ st : AState,
      _check_salary_unrealistic (some (s2l "abc")) (s2l "Manager") st = st) ∧
    analyze (s2l "Acme") (s2l "Manager") longDesc (s2l "a@acme.com")
      (some (s2l "www.acme.com")) (some (s2l "abc")) =
    analyze (s2l "Acme") (s2l "Manager") longDesc (s2l "a@acme.com")
      (some (s2l "www.acme.com")) none :=
  analyze_unparsable_salary_skipped (s2l "Acme") (s2l "Manager") longDesc
    (s2l "a@acme.com") (some (s2l "www.acme.com")) (s2l "abc")
    (Or.inl (by decide))

/-- C5 counterexample: appending the matching urgency keyword "immediately"
to a 98-character keyword-free description drops the risk score from 6 to
0: the description passes the 100-character threshold, so Poor Job
Description Quality no longer fires, while one urgency keyword alone fires
nothing. -/
theorem keyword_monotonicity_counterexample :
    s2l "immediately" ∈ ALL_SUSPICIOUS_KEYWORDS ∧
    substrB (s2l "immediately")
      (lowerStr (shortDesc ++ (' ' :: s2l "immediately"))) = true ∧
    scoreOf (analyze (s2l "Acme") (s2l "Manager") shortDesc
      (s2l "a@acme.com") (some (s2l "www.acme.com")) none) = some 6 ∧
    scoreOf (analyze (s2l "Acme") (s2l "Manager")
      (shortDesc ++ (' ' :: s2l "immediately")) (s2l "a@acme.com")
      (some (s2l "www.acme.com")) none) = some 0 :=
  ⟨by decide, by decide, by decide, by decide⟩

theorem pureRules_score_append (company_name job_title d add : List Char)
    (website salary : Option (List Char))
    (hlen : 100 ≤ (pyStrip d).length) (st : AState) :
    (pureRules company_name job_title d website salary st).risk_score ≤
      (pureRules company_name job_title (d ++ add) website salary
        st).risk_score := by
  have hl : lowerStr (d ++ add) = lowerStr d ++ lowerStr add :=
    lowerStr_append d add
  have him : ∀ kws, anyKw kws (lowerStr d) = true →
      anyKw kws (lowerStr (d ++ add)) = true := by
    intro kws hkw
    rw [hl]
    exact anyKw_append hkw _
  have hcnt : ∀ kws, countKw kws (lowerStr d) ≤ countKw kws (lowerStr (d ++ add)) := by
    intro kws
    rw [hl]
    exact countKw_append kws _ _
  have hcnt2 : ∀ kws n, decide (n ≤ countKw kws (lowerStr d)) = true →
      decide (n ≤ countKw kws (lowerStr (d ++ add))) = true := by
    intro kws n hb
    rw [decide_eq_true_eq] at hb ⊢
    exact le_trans hb (hcnt kws)
  have hlt : ∀ kws, decide (0 < countKw kws (lowerStr d)) = true →
      decide (0 < countKw kws (lowerStr (d ++ add))) = true := by
    intro kws hb
    rw [decide_eq_true_eq] at hb ⊢
    exact lt_of_lt_of_le hb (hcnt kws)
  unfold pureRules _check_company_legitimacy _check_description_quality
    _check_unrealistic_benefits _check_copy_paste_content
    _check_urgency_language _check_suspicious_keywords
  apply condAdd_score_mono2 _ _ (fun x => x) (by decide)
  apply condAdd_score_mono2 _ _ (hcnt2 common_misspellings 2) (by decide)
  apply condAdd_score_mono2 _ _
    (fun hb2 => absurd (of_decide_eq_true hb2) (by omega)) (by decide)
  apply salary_score_mono2
  apply condAdd_score_mono2 _ _ (him _) (by decide)
  apply condAdd_score_mono2 _ _ (hlt _) (by decide)
  apply condAdd_score_mono2 _ _ (hcnt2 _ 2) (by decide)
  apply condAdd_score_mono2 _ _ (him _) (by decide)
  apply condAdd_score_mono2 _ _ (him _) (by decide)
  apply condAdd_score_mono2 _ _ (him _) (by decide)
  exact le_refl _

/-- C5 (amended): appending a matching suspicious keyword to the description
never decreases the risk score, provided the trimmed description is already
at least 100 characters long — the counterexample shows the claim fails
when the description is shorter, because the Poor Job Description Quality
flag can be lost. -/
theorem analyze_keyword_append_mono
    (company_name job_title description email : List Char)
    (website salary : Option (List Char)) (k : List Char)
    (hk : k ∈ ALL_SUSPICIOUS_KEYWORDS)
    (hlen : 100 ≤ (pyStrip description).length)
    (s : Int) (c : String) (f : List DetectedFlag)
    (h : analyze company_name job_title description email website salary =
      Except.ok (s, c, f)) :
    ∃ s2 c2 f2,
      analyze company_name job_title (description ++ (' ' :: k)) email
        website salary = Except.ok (s2, c2, f2) ∧ s ≤ s2 := by
  obtain ⟨st1, h1, h2, hs, hc, hf⟩ := analyze_ok_elim h
  have hmm := mismatch_ok_any h2 (pureRules company_name job_title
    (description ++ (' ' :: k)) website salary st1)
  refine ⟨min (pureRules company_name job_title (description ++ (' ' :: k))
      website salary st1).risk_score 100,
    _classify_risk (min (pureRules company_name job_title
      (description ++ (' ' :: k)) website salary st1).risk_score 100),
    (pureRules company_name job_title (description ++ (' ' :: k)) website
      salary st1).detected_flags, ?_, ?_⟩
  · unfold analyze
    simp only [h1]
    rw [hmm]
  · subst hs
    exact min_le_min (pureRules_score_append company_name job_title
      description (' ' :: k) website salary hlen st1) (le_refl _)

/-- Witness for the amended C5: appending "urgent" to the scenario-1 input
keeps the score at least 27. -/
theorem analyze_keyword_append_mono_witness :
    ∃ s2 c2 f2,
      analyze (s2l "Acme") (s2l "Manager") (longDesc ++ (' ' :: s2l "urgent"))
        (s2l "jobs@gmail.com") none none = Except.ok (s2, c2, f2) ∧
      (27 : Int) ≤ s2 :=
  analyze_keyword_append_mono (s2l "Acme") (s2l "Manager") longDesc
    (s2l "jobs@gmail.com") none none (s2l "urgent") (by decide) (by decide)
    27 "Legitimate"
    [⟨"Free Email Domain", Severity.high⟩,
     ⟨"Missing Company Website", Severity.high⟩] (by decide)
